import Mathlib

/-!
Shallow embedding of the health-clock phase/reminder engine from
src/app/page.tsx (a React client component).  The component state
(useState hooks) becomes an explicit record; the event handlers
(startTimer, pauseTimer, resetTimer, handleDialogAction,
handleDialogClose, the one-second interval tick, and the settings
onChange setters) become pure functions on that record; the expiry
useEffect (dependency list [timeLeft, timerState, settings]) is run by
the step function exactly when its dependencies changed and its guard
(timeLeft === 0 and timerState is not idle) holds, mirroring the React
commit/effect cycle.  JS numbers holding whole seconds are embedded as
Int; the percentage computed by getProgressPercentage is embedded as a
rational.
-/

set_option autoImplicit false

namespace HealthClock

/-- TimeUnit from page.tsx: "hours" | "minutes" | "seconds". -/
inductive TimeUnit
  | hours
  | minutes
  | seconds
deriving DecidableEq, Repr

/-- TimerState from page.tsx: "idle" | "working" | "resting". -/
inductive TimerState
  | idle
  | working
  | resting
deriving DecidableEq, Repr

/-- The dialogType state: "work" | "rest" (which phase just expired). -/
inductive DialogType
  | work
  | rest
deriving DecidableEq, Repr

/-- TimerSettings from page.tsx.  Durations and reminder counts are JS
numbers holding integers, embedded as Int. -/
structure TimerSettings where
  workDuration : Int
  workUnit : TimeUnit
  restDuration : Int
  restUnit : TimeUnit
  workReminders : Int
  restReminders : Int
deriving DecidableEq, Repr

/-- convertToSeconds from page.tsx: hours x 3600, minutes x 60,
seconds x 1. -/
def convertToSeconds (duration : Int) (unit : TimeUnit) : Int :=
  match unit with
  | .hours => duration * 3600
  | .minutes => duration * 60
  | .seconds => duration

/-- Ghost record of one run of the expiry effect: the reminder limit it
read (workReminders or restReminders for the expiring phase) and the
value of showDialog committed in the render that created the effect
closure.  The deferred playNextReminder callbacks read this captured
value, not the live state (React stale closure), so it decides whether
any repeat notification can ever fire. -/
structure ExpiryRecord where
  limit : Int
  captured : Bool
deriving DecidableEq, Repr

/-- The component state of page.tsx (every useState hook the engine
logic reads or writes), plus two ghost history fields used only to
state theorems: armedTotal remembers the duration snapshot taken when
the current phase was armed, and expiries logs every run of the expiry
effect. -/
structure EngineState where
  settings : TimerSettings
  timerState : TimerState
  timeLeft : Int
  isRunning : Bool
  showDialog : Bool
  dialogType : DialogType
  reminderCount : Int
  showSettings : Bool
  armedTotal : Int
  expiries : List ExpiryRecord
deriving DecidableEq, Repr

/-- The useState initial values of page.tsx: default settings
(25 minutes work, 5 minutes rest, 3 reminders each), idle, timeLeft 0,
not running, no dialog, dialogType "work", reminderCount 0, settings
panel shown. -/
def initialState : EngineState :=
  { settings :=
      { workDuration := 25
        workUnit := .minutes
        restDuration := 5
        restUnit := .minutes
        workReminders := 3
        restReminders := 3 }
    timerState := .idle
    timeLeft := 0
    isRunning := false
    showDialog := false
    dialogType := .work
    reminderCount := 0
    showSettings := true
    armedTotal := 0
    expiries := [] }

/-- The discrete events delivered to the engine: the five user command
handlers, one tick of the one-second interval, and a write of the
settings object (any onChange setter or the localStorage load). -/
inductive Event
  | start
  | pause
  | reset
  | tick
  | acknowledge
  | dismiss
  | setSettings (ns : TimerSettings)
deriving Repr

/-- startTimer from page.tsx: if idle, arm timeLeft with the work
duration converted to seconds, enter working and hide the settings
panel; in every case set isRunning true.  armedTotal is the ghost
snapshot of the armed duration. -/
def startTimer (s : EngineState) : EngineState :=
  if s.timerState = .idle then
    let workSeconds := convertToSeconds s.settings.workDuration s.settings.workUnit
    { s with
        timeLeft := workSeconds
        timerState := .working
        showSettings := false
        isRunning := true
        armedTotal := workSeconds }
  else
    { s with isRunning := true }

/-- pauseTimer from page.tsx: setIsRunning(false). -/
def pauseTimer (s : EngineState) : EngineState :=
  { s with isRunning := false }

/-- resetTimer from page.tsx: stop running, back to idle, zero
timeLeft, close the dialog, zero reminderCount, show settings, clear
the pending reminder timeout and stop audio (no engine-state effect
beyond the fields below). -/
def resetTimer (s : EngineState) : EngineState :=
  { s with
      isRunning := false
      timerState := .idle
      timeLeft := 0
      showDialog := false
      reminderCount := 0
      showSettings := true
      armedTotal := 0 }

/-- handleDialogAction from page.tsx (the acknowledge button): close
the dialog, zero reminderCount, clear the pending reminder timeout and
stop audio, then unconditionally branch on dialogType: "work" arms the
rest phase, anything else arms the work phase; finally set isRunning
true.  Note there is no guard on timerState or showDialog. -/
def handleDialogAction (s : EngineState) : EngineState :=
  if s.dialogType = .work then
    { s with
        showDialog := false
        reminderCount := 0
        timeLeft := convertToSeconds s.settings.restDuration s.settings.restUnit
        timerState := .resting
        isRunning := true
        armedTotal := convertToSeconds s.settings.restDuration s.settings.restUnit }
  else
    { s with
        showDialog := false
        reminderCount := 0
        timeLeft := convertToSeconds s.settings.workDuration s.settings.workUnit
        timerState := .working
        isRunning := true
        armedTotal := convertToSeconds s.settings.workDuration s.settings.workUnit }

/-- handleDialogClose from page.tsx (dismissing the dialog): close the
dialog, zero reminderCount, pause, clear the pending reminder timeout
and stop audio.  The phase and timeLeft are untouched. -/
def handleDialogClose (s : EngineState) : EngineState :=
  { s with showDialog := false, reminderCount := 0, isRunning := false }

/-- One callback of the main one-second interval from page.tsx.  The
interval only exists while isRunning and timeLeft > 0 (the effect with
dependency list [isRunning, timeLeft] clears it otherwise), and each
callback runs setTimeLeft(prev => prev - 1). -/
def tickStep (s : EngineState) : EngineState :=
  if s.isRunning = true ∧ 0 < s.timeLeft then
    { s with timeLeft := s.timeLeft - 1 }
  else
    s

/-- The dependency list [timeLeft, timerState, settings] of the expiry
useEffect in page.tsx. -/
def expiryDeps (s : EngineState) : Int × TimerState × TimerSettings :=
  (s.timeLeft, s.timerState, s.settings)

/-- The body of the expiry useEffect in page.tsx, run when timeLeft is
0 and the phase is not idle: stop running, set dialogType from the
expiring phase, open the dialog, zero reminderCount, read the reminder
limit for the expiring phase, and fire the first notification.  The
ghost expiries log appends the limit together with the committed
showDialog value of the render that created this effect closure (the
input state, since setShowDialog(true) only takes effect at the next
render): that captured value is what every deferred playNextReminder
callback of this run will read. -/
def runExpiry (s : EngineState) : EngineState :=
  let limit :=
    if s.timerState = .working then s.settings.workReminders else s.settings.restReminders
  { s with
      isRunning := false
      dialogType := if s.timerState = .working then .work else .rest
      showDialog := true
      reminderCount := 0
      expiries := s.expiries ++ [⟨limit, s.showDialog⟩] }

/-- React runs the expiry effect after a commit exactly when one of its
dependencies [timeLeft, timerState, settings] changed.  forceDeps is
true for settings writes: the onChange setters always build a fresh
object, so the reference-equality dependency check sees a change even
when the field values are equal. -/
def applyExpiryIfNeeded (old new : EngineState) (forceDeps : Bool) : EngineState :=
  if (forceDeps = true ∨ expiryDeps old ≠ expiryDeps new) ∧
      new.timeLeft = 0 ∧ new.timerState ≠ .idle then
    runExpiry new
  else
    new

/-- One engine step: apply the event handler, then run the expiry
effect if its dependencies changed and its guard holds. -/
def step (s : EngineState) (e : Event) : EngineState :=
  match e with
  | .start => applyExpiryIfNeeded s (startTimer s) false
  | .pause => applyExpiryIfNeeded s (pauseTimer s) false
  | .reset => applyExpiryIfNeeded s (resetTimer s) false
  | .tick => applyExpiryIfNeeded s (tickStep s) false
  | .acknowledge => applyExpiryIfNeeded s (handleDialogAction s) false
  | .dismiss => applyExpiryIfNeeded s (handleDialogClose s) false
  | .setSettings ns => applyExpiryIfNeeded s { s with settings := ns } true

/-- Fold a list of events through step. -/
def runEvents (s : EngineState) (es : List Event) : EngineState :=
  es.foldl step s

/-- The states reachable from the initial render by any event
sequence. -/
inductive Reachable : EngineState → Prop
  | init : Reachable initialState
  | next (s : EngineState) (e : Event) : Reachable s → Reachable (step s e)

/-- Times in seconds (relative to the expiry-effect run) at which the
reminder protocol of page.tsx plays a notification, given the reminder
limit m, the closure-captured showDialog value of the run, and an
optional time at which a cancel handler (handleDialogAction,
handleDialogClose or resetTimer) runs clearInterval on
reminderIntervalRef.

Derivation from the source: the effect plays the first notification
synchronously at time 0, and when maxReminders > 1 arms
setTimeout(playNextReminder, 15000), storing the handle in
reminderIntervalRef.  A cancel strictly before 15 clears that pending
timeout, so no invocation ever happens.  Once the first invocation
starts at 15, nothing can stop the chain: each invocation body checks
the closure-captured showDialog (never the live state), then awaits a
15 second promise that clearInterval cannot cancel (the ref still
holds the already-fired timeout handle), plays the notification, and
chains the next invocation through setTimeout(.., 0).  Invocation i
(1-indexed) runs its body exactly when i - 1 < maxReminders - 1 and
the captured flag is true, and plays at time 15 * (i + 1), so the
repeat notifications are 30, 45, ..., 15 * maxReminders. -/
def notifTimes (m : Int) (captured : Bool) (cancelAt : Option Nat) : List Nat :=
  let firstInvocationRuns : Bool :=
    decide (1 < m) &&
      (match cancelAt with
       | none => true
       | some tc => decide (15 ≤ tc))
  if firstInvocationRuns && captured then
    0 :: (List.range (m - 1).toNat).map (fun i => 30 + 15 * i)
  else
    [0]

/-- getProgressPercentage from page.tsx: 0 while idle, otherwise
((totalTime - timeLeft) / totalTime) * 100 where totalTime is
recomputed from the CURRENT settings of the current phase at every
call.  JS real division is embedded as rational division. -/
def getProgressPercentage (s : EngineState) : ℚ :=
  if s.timerState = .idle then 0
  else
    let totalTime : Int :=
      if s.timerState = .working then
        convertToSeconds s.settings.workDuration s.settings.workUnit
      else
        convertToSeconds s.settings.restDuration s.settings.restUnit
    ((totalTime : ℚ) - (s.timeLeft : ℚ)) / (totalTime : ℚ) * 100

/-- Modelled from the spec: the progress formula of spec section 4.4,
with totalPhaseSeconds being the snapshot captured at phase-arm time
(the ghost field armedTotal), scaled by 100 like the source function
it specifies. -/
def progressSpec (s : EngineState) : ℚ :=
  if s.timerState = .idle then 0
  else ((s.armedTotal : ℚ) - (s.timeLeft : ℚ)) / (s.armedTotal : ℚ) * 100

/-- A JavaScript value as it can appear in a field of the JSON object
parsed from localStorage: null (also standing for undefined), a
finite number, NaN, a string, or a boolean. -/
inductive JVal
  | vNull
  | vNum (n : Int)
  | vNaN
  | vStr (s : String)
  | vBool (b : Bool)
deriving DecidableEq, Repr

/-- JS truthiness: null, undefined, 0, NaN, the empty string and false
are falsy; everything else here is truthy. -/
def JVal.truthy : JVal → Bool
  | .vNull => false
  | .vNum n => decide (n ≠ 0)
  | .vNaN => false
  | .vStr s => decide (s ≠ "")
  | .vBool b => b

/-- The JS expression (v || d) used by the settings loader: the left
operand when truthy, otherwise the default. -/
def jsOr (v d : JVal) : JVal :=
  if v.truthy then v else d

/-- The fields the settings loader reads off the parsed JSON object;
none is a missing property (undefined). -/
structure StoredSettings where
  workDuration : Option JVal
  workUnit : Option JVal
  restDuration : Option JVal
  restUnit : Option JVal
  workReminders : Option JVal
  restReminders : Option JVal
deriving DecidableEq, Repr

/-- Property access on the parsed object: a missing property reads as
undefined, which is falsy like null. -/
def getField (f : Option JVal) : JVal :=
  f.getD .vNull

/-- The settings object produced by the load effect, field by field
(fields keep JS dynamic typing, since the loader does not validate
types). -/
structure LoadedSettings where
  workDuration : JVal
  workUnit : JVal
  restDuration : JVal
  restUnit : JVal
  workReminders : JVal
  restReminders : JVal
deriving DecidableEq, Repr

/-- The defaults of page.tsx: work 25 "minutes", rest 5 "minutes", 3
reminders for each phase. -/
def defaultLoaded : LoadedSettings :=
  { workDuration := .vNum 25
    workUnit := .vStr "minutes"
    restDuration := .vNum 5
    restUnit := .vStr "minutes"
    workReminders := .vNum 3
    restReminders := .vNum 3 }

/-- The load-settings useEffect of page.tsx: when localStorage has no
saved value, or getItem/JSON.parse throws, the catch branch keeps the
useState defaults; otherwise each field is (parsed.field || default). -/
def loadSettings (stored : Option StoredSettings) : LoadedSettings :=
  match stored with
  | none => defaultLoaded
  | some st =>
      { workDuration := jsOr (getField st.workDuration) (.vNum 25)
        workUnit := jsOr (getField st.workUnit) (.vStr "minutes")
        restDuration := jsOr (getField st.restDuration) (.vNum 5)
        restUnit := jsOr (getField st.restUnit) (.vStr "minutes")
        workReminders := jsOr (getField st.workReminders) (.vNum 3)
        restReminders := jsOr (getField st.restReminders) (.vNum 3) }

/-- Modelled from the spec: a valid reminder limit per the data model
(an integer at least 1). -/
def isValidReminderLimit : JVal → Bool
  | .vNum n => decide (1 ≤ n)
  | _ => false

/-- Number.parseInt(text) on the reminder-count input, abstracted over
the text: none is a NaN result, some n an integer result (parseInt
never yields a fraction).  The JS expression (parseInt(..) || 1) maps
NaN and 0 to 1. -/
def parseIntOr1 (v : Option Int) : Int :=
  match v with
  | none => 1
  | some n => if n = 0 then 1 else n

/-- The onChange handler of the workReminders / restReminders number
inputs in page.tsx: Math.max(1, Math.min(100, parseInt(value) || 1)). -/
def clampReminder (v : Option Int) : Int :=
  max 1 (min 100 (parseIntOr1 v))

/-- The relationship the expiry effect establishes between the dialog
and the phase: whenever the dialog is open, the phase is not idle and
dialogType records which phase expired. -/
def DialogInv (s : EngineState) : Prop :=
  s.showDialog = true →
    s.timerState ≠ .idle ∧ (s.dialogType = .work ↔ s.timerState = .working)

/-- Settings with a 1-second work phase, a 2-second rest phase and
reminder limit 3 for both phases. -/
def c1Settings : TimerSettings :=
  { workDuration := 1
    workUnit := .seconds
    restDuration := 2
    restUnit := .seconds
    workReminders := 3
    restReminders := 3 }

/-- The engine after applying those settings, starting, and letting the
single work second tick away: the work phase has expired and the
reminder dialog is open. -/
def c1ExpiredState : EngineState :=
  runEvents initialState [.setSettings c1Settings, .start, .tick]

/-- The engine after one further settings write delivered while the
reminder dialog is open: the expiry effect re-runs, and this time the
render that creates the effect closure has showDialog true, so the
deferred re-check chain is live. -/
def c2RetriggeredState : EngineState :=
  step c1ExpiredState (.setSettings c1Settings)

/-- Settings arming a 10-second work phase. -/
def c4OldSettings : TimerSettings :=
  { workDuration := 10
    workUnit := .seconds
    restDuration := 5
    restUnit := .minutes
    workReminders := 3
    restReminders := 3 }

/-- The same settings with the work duration edited to 20 seconds. -/
def c4NewSettings : TimerSettings :=
  { c4OldSettings with workDuration := 20 }

/-- Mid-phase state: 10-second work phase armed, six seconds elapsed,
four remaining. -/
def c4MidState : EngineState :=
  runEvents initialState
    [.setSettings c4OldSettings, .start, .tick, .tick, .tick, .tick, .tick, .tick]

/-- The mid-phase state after the user edits the work duration to 20
seconds: timeLeft is still 4, but the live settings now say the phase
is 20 seconds long. -/
def c4EditedState : EngineState :=
  step c4MidState (.setSettings c4NewSettings)

/-- Settings whose rest phase converts to 0 seconds. -/
def c5ZeroRestSettings : TimerSettings :=
  { workDuration := 1
    workUnit := .seconds
    restDuration := 0
    restUnit := .seconds
    workReminders := 3
    restReminders := 3 }

/-- Expired working state reached under the zero-rest settings: the
work reminder dialog is open. -/
def c5ZeroRestExpired : EngineState :=
  runEvents initialState [.setSettings c5ZeroRestSettings, .start, .tick]

/-- Idle state whose settings make the work phase convert to 0
seconds. -/
def c7ZeroWorkState : EngineState :=
  step initialState
    (.setSettings
      { workDuration := 0
        workUnit := .seconds
        restDuration := 2
        restUnit := .seconds
        workReminders := 3
        restReminders := 3 })

/-- A stored settings object whose workReminders field holds the truthy
but invalid value -5 and whose other fields are missing. -/
def c8BadStored : StoredSettings :=
  { workDuration := none
    workUnit := none
    restDuration := none
    restUnit := none
    workReminders := some (.vNum (-5))
    restReminders := none }

/-- A stored settings object exercising every falsy shape: NaN, a
missing property, the number 0, the empty string, null, and false. -/
def c8FalsyStored : StoredSettings :=
  { workDuration := some .vNaN
    workUnit := none
    restDuration := some (.vNum 0)
    restUnit := some (.vStr "")
    workReminders := some .vNull
    restReminders := some (.vBool false) }

/-- Idle initial state with the work duration set to n + 1 seconds. -/
def c9Start (n : Nat) : EngineState :=
  { initialState with
      settings :=
        { initialState.settings with workDuration := (n : Int) + 1, workUnit := .seconds } }

/-- The state of c9Start n after the start command. -/
def c9Armed (n : Nat) : EngineState :=
  step (c9Start n) .start

/-- The state of c9Armed n after as many ticks as the armed work
duration. -/
def c9Final (n : Nat) : EngineState :=
  runEvents (c9Armed n) (List.replicate (n + 1) .tick)

/-! Helper lemmas about the step function. -/

theorem runEvents_cons (s : EngineState) (e : Event) (es : List Event) :
    runEvents s (e :: es) = runEvents (step s e) es := rfl

theorem applyExpiry_of_timeLeft_ne (old new : EngineState) (f : Bool)
    (h : new.timeLeft ≠ 0) : applyExpiryIfNeeded old new f = new := by
  unfold applyExpiryIfNeeded
  rw [if_neg]
  rintro ⟨_, h0, _⟩
  exact h h0

theorem applyExpiry_of_idle (old new : EngineState) (f : Bool)
    (h : new.timerState = .idle) : applyExpiryIfNeeded old new f = new := by
  unfold applyExpiryIfNeeded
  rw [if_neg]
  rintro ⟨_, _, hne⟩
  exact hne h

theorem applyExpiry_preserves (old new : EngineState) (f : Bool) :
    (applyExpiryIfNeeded old new f).timerState = new.timerState ∧
    (applyExpiryIfNeeded old new f).timeLeft = new.timeLeft ∧
    (applyExpiryIfNeeded old new f).settings = new.settings ∧
    (applyExpiryIfNeeded old new f).armedTotal = new.armedTotal := by
  unfold applyExpiryIfNeeded
  split
  · exact ⟨rfl, rfl, rfl, rfl⟩
  · exact ⟨rfl, rfl, rfl, rfl⟩

theorem applyExpiry_reminderCount (old new : EngineState) (f : Bool)
    (h : new.reminderCount = 0) :
    (applyExpiryIfNeeded old new f).reminderCount = 0 := by
  unfold applyExpiryIfNeeded
  split
  · rfl
  · exact h

theorem step_tick_notRunning (s : EngineState) (h : s.isRunning = false) :
    step s .tick = s := by
  have ht : tickStep s = s := by
    unfold tickStep
    rw [if_neg]
    rintro ⟨h1, _⟩
    rw [h] at h1
    exact absurd h1 (by decide)
  show applyExpiryIfNeeded s (tickStep s) false = s
  rw [ht]
  unfold applyExpiryIfNeeded
  rw [if_neg]
  rintro ⟨h1 | h2, _⟩
  · exact absurd h1 (by decide)
  · exact h2 rfl

theorem runEvents_ticks_notRunning (k : Nat) (s : EngineState)
    (h : s.isRunning = false) :
    runEvents s (List.replicate k .tick) = s := by
  induction k with
  | zero => rfl
  | succ n ih =>
      rw [List.replicate_succ, runEvents_cons, step_tick_notRunning s h]
      exact ih

theorem step_tick_running_pos (s : EngineState) (hr : s.isRunning = true)
    (hpos : 0 < s.timeLeft) (hne : s.timeLeft ≠ 1) :
    step s .tick = { s with timeLeft := s.timeLeft - 1 } := by
  have ht : tickStep s = { s with timeLeft := s.timeLeft - 1 } := by
    unfold tickStep
    rw [if_pos ⟨hr, hpos⟩]
  show applyExpiryIfNeeded s (tickStep s) false = _
  rw [ht]
  apply applyExpiry_of_timeLeft_ne
  simp only []
  omega

theorem step_tick_expire (s : EngineState) (hr : s.isRunning = true)
    (h1 : s.timeLeft = 1) (hw : s.timerState ≠ .idle) :
    step s .tick = runExpiry { s with timeLeft := 0 } := by
  have ht : tickStep s = { s with timeLeft := 0 } := by
    unfold tickStep
    rw [if_pos ⟨hr, by omega⟩]
    rw [h1]
    norm_num
  show applyExpiryIfNeeded s (tickStep s) false = _
  rw [ht]
  unfold applyExpiryIfNeeded
  rw [if_pos]
  refine ⟨Or.inr ?_, rfl, hw⟩
  simp [expiryDeps, h1]

/-- The engine never lets timeLeft reach 0 silently in a countdown of
length t: starting from a running working state with a positive
remaining time, exactly that many ticks end in a single run of the
expiry effect on the zeroed state. -/
theorem countdown (n : Nat) :
    ∀ s : EngineState, s.timerState = .working → s.isRunning = true →
      s.timeLeft = (n : Int) + 1 →
      runEvents s (List.replicate (n + 1) .tick) = runExpiry { s with timeLeft := 0 } := by
  induction n with
  | zero =>
      intro s hw hr h1
      rw [List.replicate_succ, runEvents_cons]
      show runEvents (step s .tick) (List.replicate 0 .tick) = _
      rw [step_tick_expire s hr (by omega) (by rw [hw]; decide)]
      rfl
  | succ m ih =>
      intro s hw hr h1
      rw [List.replicate_succ, runEvents_cons]
      rw [step_tick_running_pos s hr (by omega) (by omega)]
      have hmid := ih { s with timeLeft := s.timeLeft - 1 } hw hr (by simp only []; omega)
      rw [hmid]

theorem dialogInv_of_fields (s t : EngineState)
    (h1 : t.showDialog = s.showDialog) (h2 : t.timerState = s.timerState)
    (h3 : t.dialogType = s.dialogType) (h : DialogInv s) : DialogInv t := by
  intro hsd
  have hs := h (h1 ▸ hsd)
  rw [h2, h3]
  exact hs

theorem dialogInv_runExpiry (s : EngineState) (h : s.timerState ≠ .idle) :
    DialogInv (runExpiry s) := by
  intro _
  cases hts : s.timerState with
  | idle => exact absurd hts h
  | working =>
      refine ⟨?_, ?_⟩
      · simp [runExpiry, hts]
      · simp [runExpiry, hts]
  | resting =>
      refine ⟨?_, ?_⟩
      · simp [runExpiry, hts]
      · simp [runExpiry, hts]

theorem dialogInv_applyExpiry (old new : EngineState) (f : Bool)
    (hnew : DialogInv new) : DialogInv (applyExpiryIfNeeded old new f) := by
  unfold applyExpiryIfNeeded
  split
  · next hc => exact dialogInv_runExpiry new hc.2.2
  · exact hnew

theorem dialogInv_step (s : EngineState) (e : Event) (h : DialogInv s) :
    DialogInv (step s e) := by
  cases e with
  | start =>
      apply dialogInv_applyExpiry
      unfold startTimer
      split
      · next hidle =>
          intro hsd
          have hs := h hsd
          exact absurd hidle hs.1
      · exact dialogInv_of_fields s _ rfl rfl rfl h
  | pause =>
      exact dialogInv_applyExpiry _ _ _ (dialogInv_of_fields s _ rfl rfl rfl h)
  | reset =>
      apply dialogInv_applyExpiry
      intro hsd
      exact absurd hsd (by simp [resetTimer])
  | tick =>
      apply dialogInv_applyExpiry
      refine dialogInv_of_fields s _ ?_ ?_ ?_ h <;>
        (unfold tickStep; split <;> rfl)
  | acknowledge =>
      apply dialogInv_applyExpiry
      intro hsd
      unfold handleDialogAction at hsd
      split at hsd <;> exact absurd hsd (by simp)
  | dismiss =>
      apply dialogInv_applyExpiry
      intro hsd
      exact absurd hsd (by simp [handleDialogClose])
  | setSettings ns =>
      exact dialogInv_applyExpiry _ _ _ (dialogInv_of_fields s _ rfl rfl rfl h)

theorem reachable_dialogInv (s : EngineState) (h : Reachable s) : DialogInv s := by
  induction h with
  | init =>
      intro hsd
      exact absurd hsd (by decide)
  | next t e _ ih => exact dialogInv_step t e ih

/-- C1: the claim says that with reminder limit 3 and no user action,
exactly 3 notifications fire, at t = 0, 15 and 30 seconds.  The code
does not do this: reaching expiry through the normal start-and-tick
path records the closure-captured showDialog as false (the render that
creates the expiry effect has not seen setShowDialog(true) yet, and
the effect never re-runs on showDialog changes), so every deferred
re-check is a no-op and the notification schedule is exactly [0]: one
notification, nothing at 15, 30 or 45. -/
theorem c1_stale_closure_kills_repeats :
    c1ExpiredState.expiries = [⟨3, false⟩] ∧
    notifTimes 3 false none = [0] ∧
    (notifTimes 3 false none).length = 1 ∧
    15 ∉ notifTimes 3 false none ∧
    30 ∉ notifTimes 3 false none ∧
    notifTimes 3 false none ≠ [0, 15, 30] := by
  decide

/-- C2: the claim says a cancelled scheduler never fires again because
a stale re-check re-validates the active flag when it fires.  The code
checks a closure-captured copy of showDialog instead of the live
state, and the in-flight async chain cannot be cancelled (the stored
timeout handle has already fired when clearInterval runs).  On the one
path where the captured flag is true — a settings write delivered
while the dialog is open re-runs the expiry effect — the schedule is
[0, 30, 45], and a cancellation at t = 20 (after the first re-check
was armed and began) still lets the notifications at 30 and 45 fire. -/
theorem c2_cancellation_leak :
    c2RetriggeredState.expiries = [⟨3, false⟩, ⟨3, true⟩] ∧
    notifTimes 3 true (some 20) = [0, 30, 45] ∧
    30 ∈ notifTimes 3 true (some 20) ∧
    20 < 30 := by
  decide

/-- C3 counterexample: an acknowledge delivered in the initial idle
state is not a no-op — the handler has no phase guard, so it arms the
rest phase (dialogType defaults to "work"), sets timeLeft to the
300-second rest default and starts the clock. -/
theorem c3_ack_while_idle_not_noop :
    initialState.timerState = .idle ∧
    step initialState .acknowledge ≠ initialState ∧
    (step initialState .acknowledge).timerState = .resting ∧
    (step initialState .acknowledge).isRunning = true ∧
    (step initialState .acknowledge).timeLeft = 300 := by
  decide

/-- C3 amended: an acknowledge arriving while the phase is idle is
applied unconditionally — handleDialogAction performs the
dialogType-determined transition (to resting with the rest snapshot
when dialogType is work, else to working with the work snapshot) and
zeroes reminderCount, leaving the idle phase.  It is not an error, but
it is not a no-op either. -/
theorem c3_ack_while_idle_transitions (s : EngineState)
    (_hidle : s.timerState = .idle) :
    (step s .acknowledge).timerState =
      (if s.dialogType = .work then .resting else .working) ∧
    (step s .acknowledge).timeLeft =
      (if s.dialogType = .work then
        convertToSeconds s.settings.restDuration s.settings.restUnit
      else
        convertToSeconds s.settings.workDuration s.settings.workUnit) ∧
    (step s .acknowledge).timerState ≠ .idle ∧
    (step s .acknowledge).reminderCount = 0 := by
  have hpre := applyExpiry_preserves s (handleDialogAction s) false
  have hrc : (step s .acknowledge).reminderCount = 0 := by
    apply applyExpiry_reminderCount
    unfold handleDialogAction
    split <;> rfl
  have hts : (handleDialogAction s).timerState =
      (if s.dialogType = .work then TimerState.resting else TimerState.working) := by
    unfold handleDialogAction
    split <;> rfl
  have htl : (handleDialogAction s).timeLeft =
      (if s.dialogType = .work then
        convertToSeconds s.settings.restDuration s.settings.restUnit
      else
        convertToSeconds s.settings.workDuration s.settings.workUnit) := by
    unfold handleDialogAction
    split <;> rfl
  refine ⟨?_, ?_, ?_, hrc⟩
  · show (applyExpiryIfNeeded s (handleDialogAction s) false).timerState = _
    rw [hpre.1, hts]
  · show (applyExpiryIfNeeded s (handleDialogAction s) false).timeLeft = _
    rw [hpre.2.1, htl]
  · show (applyExpiryIfNeeded s (handleDialogAction s) false).timerState ≠ _
    rw [hpre.1, hts]
    split <;> decide

/-- C3 amended, witness: the theorem applied at the initial state. -/
theorem c3_ack_while_idle_transitions_witness :
    (step initialState .acknowledge).timerState =
      (if initialState.dialogType = .work then .resting else .working) ∧
    (step initialState .acknowledge).timeLeft =
      (if initialState.dialogType = .work then
        convertToSeconds initialState.settings.restDuration initialState.settings.restUnit
      else
        convertToSeconds initialState.settings.workDuration initialState.settings.workUnit) ∧
    (step initialState .acknowledge).timerState ≠ .idle ∧
    (step initialState .acknowledge).reminderCount = 0 :=
  c3_ack_while_idle_transitions initialState (by decide)

/-- C4 counterexample: getProgressPercentage recomputes the total from
the live settings on every call, so a mid-phase settings edit changes
the computed progress.  In the reachable state with a 10-second work
snapshot (armedTotal = 10), 4 seconds remaining and the work duration
edited to 20 seconds, the code computes (20 - 4) / 20 * 100 = 80 while
the snapshot formula of the claim gives (10 - 4) / 10 * 100 = 60. -/
theorem c4_progress_reads_live_settings :
    Reachable c4EditedState ∧
    c4EditedState.armedTotal = 10 ∧
    c4EditedState.timeLeft = 4 ∧
    getProgressPercentage c4EditedState = 80 ∧
    progressSpec c4EditedState = 60 ∧
    getProgressPercentage c4EditedState ≠ progressSpec c4EditedState := by
  have hts : c4EditedState.timerState = TimerState.working := by decide
  have htl : c4EditedState.timeLeft = 4 := by decide
  have hat : c4EditedState.armedTotal = 10 := by decide
  have hse : c4EditedState.settings = c4NewSettings := by decide
  have hlive : getProgressPercentage c4EditedState = 80 := by
    unfold getProgressPercentage
    rw [hts, htl, hse]
    norm_num [c4NewSettings, c4OldSettings, convertToSeconds]
    all_goals decide
  have hsnap : progressSpec c4EditedState = 60 := by
    unfold progressSpec
    rw [hts, htl, hat]
    norm_num
    all_goals decide
  refine ⟨?_, hat, htl, hlive, hsnap, by rw [hlive, hsnap]; norm_num⟩
  show Reachable (step (step (step (step (step (step (step (step (step initialState
    (.setSettings c4OldSettings)) .start) .tick) .tick) .tick) .tick) .tick) .tick)
    (.setSettings c4NewSettings))
  exact .next _ _ (.next _ _ (.next _ _ (.next _ _ (.next _ _ (.next _ _ (.next _ _
    (.next _ _ (.next _ _ .init))))))))

/-- C4 amended: progress is 0 while idle; otherwise it is
((total - timeLeft) / total) * 100 where total is re-read from the
LIVE settings of the current phase at evaluation time, so a settings
write mid-phase changes the computed progress while leaving timeLeft
(the only armed snapshot) untouched. -/
theorem c4_progress_formula (s : EngineState) (ns : TimerSettings) :
    (s.timerState = .idle → getProgressPercentage s = 0) ∧
    (step s (.setSettings ns)).timeLeft = s.timeLeft ∧
    getProgressPercentage (step s (.setSettings ns)) =
      (if s.timerState = .idle then 0
       else if s.timerState = .working then
        ((convertToSeconds ns.workDuration ns.workUnit : ℚ) - (s.timeLeft : ℚ)) /
          (convertToSeconds ns.workDuration ns.workUnit : ℚ) * 100
       else
        ((convertToSeconds ns.restDuration ns.restUnit : ℚ) - (s.timeLeft : ℚ)) /
          (convertToSeconds ns.restDuration ns.restUnit : ℚ) * 100) := by
  have hpre := applyExpiry_preserves s { s with settings := ns } true
  have hts : (step s (.setSettings ns)).timerState = s.timerState := hpre.1
  have htl : (step s (.setSettings ns)).timeLeft = s.timeLeft := hpre.2.1
  have hse : (step s (.setSettings ns)).settings = ns := hpre.2.2.1
  refine ⟨fun h => by simp [getProgressPercentage, h], htl, ?_⟩
  unfold getProgressPercentage
  rw [hts, htl, hse]
  cases s.timerState <;> simp

/-- C4 amended, witness: the formula evaluated at the idle initial
state and at the concrete mid-phase edit of the counterexample. -/
theorem c4_progress_formula_witness :
    getProgressPercentage initialState = 0 ∧
    getProgressPercentage c4EditedState = 80 := by
  constructor
  · exact (c4_progress_formula initialState initialState.settings).1 rfl
  · have h := (c4_progress_formula c4MidState c4NewSettings).2.2
    show getProgressPercentage (step c4MidState (.setSettings c4NewSettings)) = 80
    rw [h]
    have hts : c4MidState.timerState = TimerState.working := by decide
    have htl : c4MidState.timeLeft = 4 := by decide
    rw [hts, htl]
    norm_num [c4NewSettings, c4OldSettings, convertToSeconds]
    all_goals decide

/-- C5 counterexample: when the rest duration converts to 0 seconds,
an acknowledge from the reminder-active working state does arm the
rest snapshot, but the zero-length rest phase expires in the same
step, so the engine ends with running = false and the rest reminder
open — not running = true as the claim states. -/
theorem c5_zero_rest_not_running :
    Reachable c5ZeroRestExpired ∧
    c5ZeroRestExpired.timerState = .working ∧
    c5ZeroRestExpired.showDialog = true ∧
    (step c5ZeroRestExpired .acknowledge).isRunning = false ∧
    (step c5ZeroRestExpired .acknowledge).showDialog = true := by
  refine ⟨?_, by decide, by decide, by decide, by decide⟩
  show Reachable (step (step (step initialState (.setSettings c5ZeroRestSettings))
    .start) .tick)
  exact .next _ _ (.next _ _ (.next _ _ .init))

/-- C5 amended: an acknowledge in a reachable reminder-active working
state cancels the reminder state, enters resting and arms timeLeft
with the rest-duration snapshot; the clock is started (running = true,
dialog closed) whenever that snapshot is nonzero, while a zero
snapshot makes the rest phase expire immediately (running = false,
rest reminder open). -/
theorem c5_acknowledge_working (s : EngineState) (hr : Reachable s)
    (hw : s.timerState = .working) (hd : s.showDialog = true) :
    (step s .acknowledge).timerState = .resting ∧
    (step s .acknowledge).timeLeft =
      convertToSeconds s.settings.restDuration s.settings.restUnit ∧
    (step s .acknowledge).reminderCount = 0 ∧
    (convertToSeconds s.settings.restDuration s.settings.restUnit ≠ 0 →
      (step s .acknowledge).isRunning = true ∧
      (step s .acknowledge).showDialog = false) ∧
    (convertToSeconds s.settings.restDuration s.settings.restUnit = 0 →
      (step s .acknowledge).isRunning = false ∧
      (step s .acknowledge).showDialog = true ∧
      (step s .acknowledge).expiries.length = s.expiries.length + 1) := by
  have hdt : s.dialogType = .work := ((reachable_dialogInv s hr) hd).2.mpr hw
  have hact : handleDialogAction s =
      { s with
          showDialog := false
          reminderCount := 0
          timeLeft := convertToSeconds s.settings.restDuration s.settings.restUnit
          timerState := .resting
          isRunning := true
          armedTotal := convertToSeconds s.settings.restDuration s.settings.restUnit } := by
    unfold handleDialogAction
    rw [if_pos hdt]
  show _ ∧ _ ∧ _ ∧ _ ∧ _
  by_cases h0 : convertToSeconds s.settings.restDuration s.settings.restUnit = 0
  · have hstep : step s .acknowledge = runExpiry (handleDialogAction s) := by
      show applyExpiryIfNeeded s (handleDialogAction s) false = _
      unfold applyExpiryIfNeeded
      rw [if_pos]
      refine ⟨Or.inr ?_, by rw [hact]; exact h0, by rw [hact]; simp⟩
      rw [hact]
      simp [expiryDeps, hw]
    rw [hstep, hact]
    refine ⟨rfl, rfl, rfl, fun hne => absurd h0 hne, fun _ => ⟨rfl, rfl, ?_⟩⟩
    simp [runExpiry]
  · have hstep : step s .acknowledge = handleDialogAction s := by
      show applyExpiryIfNeeded s (handleDialogAction s) false = _
      apply applyExpiry_of_timeLeft_ne
      rw [hact]
      exact h0
    rw [hstep, hact]
    exact ⟨rfl, rfl, rfl, fun _ => ⟨rfl, rfl⟩, fun hz => absurd hz h0⟩

/-- C5 amended, witness: the theorem applied at the concrete reachable
expired working state with a 2-second rest snapshot. -/
theorem c5_acknowledge_working_witness :
    (step c1ExpiredState .acknowledge).timerState = .resting ∧
    (step c1ExpiredState .acknowledge).timeLeft = 2 ∧
    (step c1ExpiredState .acknowledge).reminderCount = 0 ∧
    (step c1ExpiredState .acknowledge).isRunning = true ∧
    (step c1ExpiredState .acknowledge).showDialog = false := by
  have hreach : Reachable c1ExpiredState := by
    show Reachable (step (step (step initialState (.setSettings c1Settings)) .start) .tick)
    exact .next _ _ (.next _ _ (.next _ _ .init))
  obtain ⟨h1, h2, h3, h4, _⟩ :=
    c5_acknowledge_working c1ExpiredState hreach (by decide) (by decide)
  obtain ⟨h5, h6⟩ := h4 (by decide)
  refine ⟨h1, ?_, h3, h5, h6⟩
  rw [h2]
  decide

/-- C6: a reset command from any engine state whatsoever — in
particular from each of the 3 phases crossed with reminder active or
inactive — yields the idle phase with remainingSeconds 0, the reminder
cancelled (dialog closed, reminderCount 0) and the clock stopped. -/
theorem c6_reset_from_any_state (s : EngineState) :
    (step s .reset).timerState = .idle ∧
    (step s .reset).timeLeft = 0 ∧
    (step s .reset).isRunning = false ∧
    (step s .reset).showDialog = false ∧
    (step s .reset).reminderCount = 0 := by
  have hstep : step s .reset = resetTimer s := by
    show applyExpiryIfNeeded s (resetTimer s) false = _
    exact applyExpiry_of_idle _ _ _ rfl
  rw [hstep]
  exact ⟨rfl, rfl, rfl, rfl, rfl⟩

/-- C7: a start command from idle whose work duration converts to 0
seconds runs the expiry effect in the very same step — no clock tick is
needed: the engine ends in the reminder-active working state (dialog
open, clock stopped, timeLeft 0) with one new expiry recorded. -/
theorem c7_zero_duration_expires_immediately (s : EngineState)
    (hidle : s.timerState = .idle)
    (h0 : convertToSeconds s.settings.workDuration s.settings.workUnit = 0) :
    (step s .start).timerState = .working ∧
    (step s .start).timeLeft = 0 ∧
    (step s .start).showDialog = true ∧
    (step s .start).isRunning = false ∧
    (step s .start).expiries.length = s.expiries.length + 1 := by
  have hstart : startTimer s =
      { s with
          timeLeft := convertToSeconds s.settings.workDuration s.settings.workUnit
          timerState := .working
          showSettings := false
          isRunning := true
          armedTotal := convertToSeconds s.settings.workDuration s.settings.workUnit } := by
    unfold startTimer
    rw [if_pos hidle]
  have hstep : step s .start = runExpiry (startTimer s) := by
    show applyExpiryIfNeeded s (startTimer s) false = _
    unfold applyExpiryIfNeeded
    rw [if_pos]
    refine ⟨Or.inr ?_, by rw [hstart]; exact h0, by rw [hstart]; simp⟩
    rw [hstart]
    simp [expiryDeps, hidle]
  rw [hstep, hstart]
  refine ⟨rfl, h0, rfl, rfl, ?_⟩
  simp [runExpiry]

/-- C7 witness: the theorem applied at the concrete idle state whose
work duration is 0 seconds. -/
theorem c7_zero_duration_witness :
    (step c7ZeroWorkState .start).timerState = .working ∧
    (step c7ZeroWorkState .start).timeLeft = 0 ∧
    (step c7ZeroWorkState .start).showDialog = true ∧
    (step c7ZeroWorkState .start).isRunning = false ∧
    (step c7ZeroWorkState .start).expiries.length = c7ZeroWorkState.expiries.length + 1 :=
  c7_zero_duration_expires_immediately c7ZeroWorkState (by decide) (by decide)

/-- C8 counterexample: the loader only substitutes a default for FALSY
fields.  A stored workReminders of -5 is truthy, so it is loaded
verbatim although it is invalid (the data model requires an integer of
at least 1) and differs from the default 3: not every invalid field
falls back to its default. -/
theorem c8_invalid_truthy_field_kept :
    (loadSettings (some c8BadStored)).workReminders = .vNum (-5) ∧
    isValidReminderLimit (.vNum (-5)) = false ∧
    JVal.vNum (-5) ≠ JVal.vNum 3 := by
  decide

/-- C8 amended: a load failure is never fatal (the engine keeps the
full defaults), and every missing or FALSY field — absent, null, NaN,
0, the empty string or false — falls back to its default: work 25
minutes, rest 5 minutes, 3 reminders for each phase.  A truthy stored
value is kept verbatim even when invalid. -/
theorem c8_falsy_fields_fall_back (st : StoredSettings) :
    loadSettings none = defaultLoaded ∧
    ((getField st.workDuration).truthy = false →
      (loadSettings (some st)).workDuration = .vNum 25) ∧
    ((getField st.workUnit).truthy = false →
      (loadSettings (some st)).workUnit = .vStr "minutes") ∧
    ((getField st.restDuration).truthy = false →
      (loadSettings (some st)).restDuration = .vNum 5) ∧
    ((getField st.restUnit).truthy = false →
      (loadSettings (some st)).restUnit = .vStr "minutes") ∧
    ((getField st.workReminders).truthy = false →
      (loadSettings (some st)).workReminders = .vNum 3) ∧
    ((getField st.restReminders).truthy = false →
      (loadSettings (some st)).restReminders = .vNum 3) := by
  refine ⟨rfl, ?_, ?_, ?_, ?_, ?_, ?_⟩ <;>
    (intro h; simp [loadSettings, jsOr, h])

/-- C8 amended, witness: the theorem applied to a stored object
exercising every falsy shape (NaN, missing, 0, empty string, null,
false): all six fields come back as the defaults, and a failed load
keeps the defaults. -/
theorem c8_falsy_fields_fall_back_witness :
    (loadSettings (some c8FalsyStored)).workDuration = .vNum 25 ∧
    (loadSettings (some c8FalsyStored)).workUnit = .vStr "minutes" ∧
    (loadSettings (some c8FalsyStored)).restDuration = .vNum 5 ∧
    (loadSettings (some c8FalsyStored)).restUnit = .vStr "minutes" ∧
    (loadSettings (some c8FalsyStored)).workReminders = .vNum 3 ∧
    (loadSettings (some c8FalsyStored)).restReminders = .vNum 3 ∧
    loadSettings none = defaultLoaded := by
  obtain ⟨h0, h1, h2, h3, h4, h5, h6⟩ := c8_falsy_fields_fall_back c8FalsyStored
  exact ⟨h1 (by decide), h2 (by decide), h3 (by decide), h4 (by decide),
    h5 (by decide), h6 (by decide), h0⟩

/-- C9: from idle with a work duration of n + 1 seconds, a start
command followed by exactly n + 1 ticks leaves remainingSeconds 0 and
enters the reminder-active working state with exactly one expiry
recorded — and any number of further ticks changes nothing (no
duplicate expiry while remainingSeconds stays 0, since the clock is
stopped and the effect dependencies no longer change). -/
theorem c9_single_expiry_per_countdown (n k : Nat) :
    (c9Final n).timeLeft = 0 ∧
    (c9Final n).timerState = .working ∧
    (c9Final n).showDialog = true ∧
    (c9Final n).isRunning = false ∧
    (c9Final n).expiries.length = 1 ∧
    runEvents (c9Final n) (List.replicate k .tick) = c9Final n := by
  have harm : c9Armed n =
      { c9Start n with
          timeLeft := (n : Int) + 1
          timerState := .working
          showSettings := false
          isRunning := true
          armedTotal := (n : Int) + 1 } := by
    show applyExpiryIfNeeded (c9Start n) (startTimer (c9Start n)) false = _
    have hstart : startTimer (c9Start n) =
        { c9Start n with
            timeLeft := (n : Int) + 1
            timerState := .working
            showSettings := false
            isRunning := true
            armedTotal := (n : Int) + 1 } := by
      unfold startTimer
      rw [if_pos (show (c9Start n).timerState = TimerState.idle from rfl)]
      simp [c9Start, initialState, convertToSeconds]
    rw [hstart]
    apply applyExpiry_of_timeLeft_ne
    simp only []
    omega
  have hfin : c9Final n = runExpiry { c9Armed n with timeLeft := 0 } := by
    show runEvents (c9Armed n) (List.replicate (n + 1) .tick) = _
    apply countdown n (c9Armed n) <;> rw [harm]
  have hrunning : (c9Final n).isRunning = false := by
    rw [hfin]
    rfl
  refine ⟨?_, ?_, ?_, hrunning, ?_, runEvents_ticks_notRunning k _ hrunning⟩
  · rw [hfin]
    rfl
  · rw [hfin, harm]
    rfl
  · rw [hfin]
    rfl
  · rw [hfin, harm]
    simp [runExpiry, c9Start, initialState]

/-- C10: every value accepted by the reminder-count number inputs is an
integer clamped into [1, 100]: the handler applies
max 1 (min 100 (parseInt(text) || 1)), so NaN and 0 become 1 and any
out-of-range integer is clamped. -/
theorem c10_reminder_input_clamped (v : Option Int) :
    1 ≤ clampReminder v ∧ clampReminder v ≤ 100 := by
  unfold clampReminder
  exact ⟨le_max_left 1 _, max_le (by norm_num) (min_le_left _ _)⟩

end HealthClock
